import Mathlib

/-!
# WAR estruturado (`war.c`): attack resolution, mission evaluation, game loop

A shallow embedding of the game logic of `war.c`.

* A C `int` is an `Int`; the arithmetic the program performs on it
  (`tropas -= 1`, `count++`, `totalTropas += ...`) is wrapped to 32 bits by
  `wrapInt`, and theorems state the `int` range of their inputs explicitly.
* The C strings (`char[TAM_STR]`) are `String`s; `strcmp(a, b) == 0` is
  equality and `strcpy` is assignment.
* The map (`Territorio *mapa`, `int quantidade`) is a `List Territorio`
  whose length is `quantidade`.
* `rand()` and the values read by `scanf` are explicit arguments.
* One pass through the `do ... while` loop of `main` is `iteracao`; the
  variable `opcao`, declared without initializer, starts at an arbitrary value.
-/

namespace War

/-! ## Data model -/

/-- The `Territorio` struct: name, colour of the army holding it, troop count. -/
structure Territorio where
  nome : String
  corExercito : String
  tropas : Int
  deriving DecidableEq, Repr

/-- The `Missao` struct: mission id and its description. -/
structure Missao where
  id : Int
  descricao : String
  deriving DecidableEq, Repr

/-- Smallest value of a 32-bit `int`. -/
def INT_MIN : Int := -2147483648

/-- Largest value of a 32-bit `int`. -/
def INT_MAX : Int := 2147483647

/-- The two's complement value of `x` in a 32-bit `int`. -/
def wrapInt (x : Int) : Int := (x + 2147483648) % 4294967296 - 2147483648

/-- The value `x` is representable in an `int`. -/
def ehInt (x : Int) : Prop := INT_MIN ≤ x ∧ x ≤ INT_MAX

instance (x : Int) : Decidable (ehInt x) := by
  unfold ehInt; infer_instance

/-- Every troop count of the map is representable in an `int`. -/
def tropasEmInt (mapa : List Territorio) : Prop := ∀ t ∈ mapa, ehInt t.tropas

instance (mapa : List Territorio) : Decidable (tropasEmInt mapa) := by
  unfold tropasEmInt; infer_instance

/-! ## Combat resolver -/

/-- The function `simularAtaque(origem, destino)`, for two distinct territories.
`rnd` is the value returned by `rand()`; `resultado = rnd % 2`.
Returns the territories behind the two pointers after the call. -/
def simularAtaque (rnd : Nat) (origem destino : Territorio) : Territorio × Territorio :=
  let resultado := rnd % 2
  if resultado = 1 then
    -- origem->tropas -= 1; destino->tropas = 1; strcpy(destino->corExercito, origem->corExercito)
    let origem1 := { origem with tropas := wrapInt (origem.tropas - 1) }
    let destino1 := { destino with tropas := 1 }
    let destino2 := { destino1 with corExercito := origem1.corExercito }
    (origem1, destino2)
  else
    -- origem->tropas -= 1; if (origem->tropas < 1) origem->tropas = 1
    let origem1 := { origem with tropas := wrapInt (origem.tropas - 1) }
    let origem2 := if origem1.tropas < 1 then { origem1 with tropas := 1 } else origem1
    (origem2, destino)

/-! ## Attack phase -/

/-- What `faseDeAtaque` reports: one constructor per `printf` branch. -/
inductive Relato where
  /-- A `scanf` did not read an integer: "Entrada invalida." -/
  | entradaInvalida
  /-- An index is out of range: "Indice de territorio invalido." -/
  | indiceInvalido
  /-- The origin is not the player's: "Voce so pode atacar a partir de ..." -/
  | origemAlheia
  /-- The destination is the player's: "Voce nao pode atacar um territorio que ja eh seu." -/
  | destinoProprio
  /-- The origin has at most 1 troop: "Voce precisa de mais de 1 tropa para atacar." -/
  | tropasInsuficientes
  /-- The function `simularAtaque` was called: "Atacando de ... para ..." -/
  | atacou
  deriving DecidableEq, Repr

/-- The function `faseDeAtaque(mapa, quantidade, corJogador)` with
`quantidade = mapa.length`. `entOrigem` and `entDestino` are what the two
`scanf("%d", ...)` calls read (`none` when the call does not return 1) and
`rnd` is the value `rand()` returns if `simularAtaque` is reached.
Returns what was reported and the map after the call. The two pointers handed
to `simularAtaque` never alias: past the colour checks `origem ≠ destino`
(`faseDeAtaque_atacou_leitura`), so writing back the two results in sequence
is what the C code does through the pointers. -/
def faseDeAtaque (mapa : List Territorio) (corJogador : String)
    (entOrigem entDestino : Option Int) (rnd : Nat) : Relato × List Territorio :=
  match entOrigem with
  | none => (Relato.entradaInvalida, mapa)
  | some origem =>
    match entDestino with
    | none => (Relato.entradaInvalida, mapa)
    | some destino =>
      if origem < 0 ∨ origem ≥ (mapa.length : Int) ∨
          destino < 0 ∨ destino ≥ (mapa.length : Int) then
        (Relato.indiceInvalido, mapa)
      else
        match mapa[origem.toNat]?, mapa[destino.toNat]? with
        | some o, some d =>
          if o.corExercito ≠ corJogador then (Relato.origemAlheia, mapa)
          else if d.corExercito = corJogador then (Relato.destinoProprio, mapa)
          else if o.tropas ≤ 1 then (Relato.tropasInsuficientes, mapa)
          else
            let r := simularAtaque rnd o d
            (Relato.atacou, (mapa.set origem.toNat r.1).set destino.toNat r.2)
        | _, _ => (Relato.indiceInvalido, mapa)

/-! ## Mission evaluator -/

/-- The loop of `case 1`: `count++` for each territory of the player's colour. -/
def contarTerritorios (corJogador : String) : List Territorio → Int → Int
  | [], count => count
  | t :: resto, count =>
    contarTerritorios corJogador resto
      (if t.corExercito = corJogador then wrapInt (count + 1) else count)

/-- The loop of `case 2`: `totalTropas += mapa[i].tropas` for each territory of
the player's colour. -/
def somarTropas (corJogador : String) : List Territorio → Int → Int
  | [], totalTropas => totalTropas
  | t :: resto, totalTropas =>
    somarTropas corJogador resto
      (if t.corExercito = corJogador then wrapInt (totalTropas + t.tropas) else totalTropas)

/-- The loop of `case 3` / `default`: `return 0` at the first territory of
another colour, `return 1` after the loop. -/
def dominaTodos (corJogador : String) : List Territorio → Bool
  | [] => true
  | t :: resto => if t.corExercito ≠ corJogador then false else dominaTodos corJogador resto

/-- The function `verificarVitoria(mapa, quantidade, missao, corJogador)` with
`quantidade = mapa.length`; the C result (1 or 0) is a `Bool`. -/
def verificarVitoria (mapa : List Territorio) (missao : Missao) (corJogador : String) : Bool :=
  if missao.id = 1 then decide (contarTerritorios corJogador mapa 0 ≥ 3)
  else if missao.id = 2 then decide (somarTropas corJogador mapa 0 ≥ 15)
  else dominaTodos corJogador mapa

/-! ## Mission draw -/

/-- The constant `TOTAL_MISSOES`. -/
def TOTAL_MISSOES : Nat := 3

/-- Modelled from the spec: the C library constant `RAND_MAX`, the largest
value `rand()` returns, taken to be `2^31 - 1`. -/
def RAND_MAX : Nat := 2147483647

/-- The function `sortearMissao()`: `(rand() % TOTAL_MISSOES) + 1`, where `rnd`
is the value returned by `rand()`. -/
def sortearMissao (rnd : Nat) : Int := ((rnd % TOTAL_MISSOES : Nat) : Int) + 1

/-! ## Game loop -/

/-- The variables of `main` that the game loop reads and writes: the map, the
current content of `opcao` and the flag `venceu` (0 or 1, as a `Bool`). -/
structure Jogo where
  mapa : List Territorio
  opcao : Int
  venceu : Bool
  deriving DecidableEq, Repr

/-- What one iteration of the game loop reads: the result of
`scanf("%d", &opcao)` (`none` when it does not return 1) and, for the attack
phase, the results of its two `scanf` calls and the value of `rand()`. -/
structure Entrada where
  entOpcao : Option Int
  entOrigem : Option Int
  entDestino : Option Int
  rnd : Nat
  deriving DecidableEq, Repr

/-- What one iteration of the game loop reports. -/
inductive Aviso where
  /-- The menu `scanf` did not read an integer: "Entrada invalida." -/
  | entradaInvalida
  /-- Option 1: the report of `faseDeAtaque`. -/
  | ataque (r : Relato)
  /-- Option 2, mission fulfilled: "PARABENS! Voce cumpriu a missao!" -/
  | missaoCumprida
  /-- Option 2, mission not fulfilled: "Ainda nao cumpriu a missao." -/
  | missaoPendente
  /-- Option 0: "Encerrando o jogo..." -/
  | encerrando
  /-- Any other option: "Opcao invalida." -/
  | opcaoInvalida
  deriving DecidableEq, Repr

/-- The state at the first entry into the `do` block of `main`: `int opcao;`
has no initializer, so it holds an indeterminate value `lixo`; `venceu = 0`. -/
def inicio (mapa : List Territorio) (lixo : Int) : Jogo := ⟨mapa, lixo, false⟩

/-- The loop condition of `main`: `opcao != 0 && !venceu`. -/
def continua (j : Jogo) : Bool := decide (j.opcao ≠ 0) && !j.venceu

/-- One iteration of the `do { ... } while (opcao != 0 && !venceu)` loop of
`main`: the body followed by the evaluation of the loop condition. When the
menu `scanf` fails, `opcao` is not written and `continue` jumps to the loop
condition. Returns the report, the variables after the body and whether the
loop goes on. -/
def iteracao (missao : Missao) (corJogador : String) (j : Jogo) (e : Entrada) :
    Aviso × Jogo × Bool :=
  match e.entOpcao with
  | none => (Aviso.entradaInvalida, j, continua j)
  | some op =>
    let j1 : Jogo := { j with opcao := op }
    if op = 1 then
      let r := faseDeAtaque j1.mapa corJogador e.entOrigem e.entDestino e.rnd
      let j2 : Jogo := { j1 with mapa := r.2 }
      (Aviso.ataque r.1, j2, continua j2)
    else if op = 2 then
      if verificarVitoria j1.mapa missao corJogador = true then
        let j2 : Jogo := { j1 with venceu := true }
        (Aviso.missaoCumprida, j2, continua j2)
      else (Aviso.missaoPendente, j1, continua j1)
    else if op = 0 then (Aviso.encerrando, j1, continua j1)
    else (Aviso.opcaoInvalida, j1, continua j1)

/-! ## Arithmetic helpers -/

theorem wrapInt_of_ehInt {x : Int} (h : ehInt x) : wrapInt x = x := by
  unfold ehInt INT_MIN INT_MAX at h
  unfold wrapInt
  omega

/-! ## Combat resolver: the two outcomes -/

/-- C1: when `rand() % 2 == 1` (attacker won), `simularAtaque` gives the
defender the attacker's colour and exactly 1 troop and takes exactly 1 troop
from the attacker. -/
theorem simularAtaque_ataque_vence (rnd : Nat) (origem destino : Territorio)
    (hr : rnd % 2 = 1) (hmin : INT_MIN < origem.tropas) (hmax : origem.tropas ≤ INT_MAX) :
    (simularAtaque rnd origem destino).2.corExercito = origem.corExercito ∧
    (simularAtaque rnd origem destino).2.tropas = 1 ∧
    (simularAtaque rnd origem destino).1.tropas = origem.tropas - 1 := by
  have hw : wrapInt (origem.tropas - 1) = origem.tropas - 1 :=
    wrapInt_of_ehInt (by unfold ehInt; unfold INT_MIN at *; unfold INT_MAX at *; omega)
  simp [simularAtaque, hr, hw]

/-- C1 at the scenario of the specification: (Red, 5) attacks (Green, 3). -/
theorem simularAtaque_ataque_vence_witness :
    (1 % 2 = 1 ∧ INT_MIN < (5 : Int) ∧ (5 : Int) ≤ INT_MAX) ∧
    (simularAtaque 1 ⟨"A", "Red", 5⟩ ⟨"C", "Green", 3⟩).2.corExercito = "Red" ∧
    (simularAtaque 1 ⟨"A", "Red", 5⟩ ⟨"C", "Green", 3⟩).2.tropas = 1 ∧
    (simularAtaque 1 ⟨"A", "Red", 5⟩ ⟨"C", "Green", 3⟩).1.tropas = 5 - 1 :=
  ⟨by decide,
   simularAtaque_ataque_vence 1 ⟨"A", "Red", 5⟩ ⟨"C", "Green", 3⟩
     (by decide) (by decide) (by decide)⟩

/-- C2: when `rand() % 2 == 0` (defender won), `simularAtaque` leaves the
attacker with `max (t - 1) 1` troops and leaves the defender (name, colour and
troops) as it was. -/
theorem simularAtaque_defesa_vence (rnd : Nat) (origem destino : Territorio)
    (hr : rnd % 2 = 0) (hmin : INT_MIN < origem.tropas) (hmax : origem.tropas ≤ INT_MAX) :
    (simularAtaque rnd origem destino).1.tropas = max (origem.tropas - 1) 1 ∧
    (simularAtaque rnd origem destino).2 = destino := by
  have hw : wrapInt (origem.tropas - 1) = origem.tropas - 1 :=
    wrapInt_of_ehInt (by unfold ehInt; unfold INT_MIN at *; unfold INT_MAX at *; omega)
  simp only [simularAtaque, hr, hw]
  refine ⟨?_, ?_⟩
  · by_cases h : origem.tropas - 1 < 1
    · simp [h]; omega
    · simp [h]; omega
  · simp

/-- C2 at the scenario of the specification: (Red, 5) attacks (Green, 3) and
the defender holds. -/
theorem simularAtaque_defesa_vence_witness :
    (0 % 2 = 0 ∧ INT_MIN < (5 : Int) ∧ (5 : Int) ≤ INT_MAX) ∧
    (simularAtaque 0 ⟨"A", "Red", 5⟩ ⟨"C", "Green", 3⟩).1.tropas = max (5 - 1) 1 ∧
    (simularAtaque 0 ⟨"A", "Red", 5⟩ ⟨"C", "Green", 3⟩).2 = ⟨"C", "Green", 3⟩ :=
  ⟨by decide,
   simularAtaque_defesa_vence 0 ⟨"A", "Red", 5⟩ ⟨"C", "Green", 3⟩
     (by decide) (by decide) (by decide)⟩

/-! ## Mission evaluator -/

/-- The counting loop adds the number of the player's territories to its
accumulator, as long as the accumulator plus the number of territories left
fits in an `int`. -/
theorem contarTerritorios_eq (cor : String) (l : List Territorio) :
    ∀ count : Int, 0 ≤ count → count + (l.length : Int) ≤ INT_MAX →
      contarTerritorios cor l count
        = count + ((l.countP (fun t => decide (t.corExercito = cor)) : Nat) : Int) := by
  induction l with
  | nil => intro count _ _; simp [contarTerritorios]
  | cons t resto ih =>
    intro count h0 hmax
    simp only [List.length_cons, Nat.cast_add, Nat.cast_one] at hmax
    by_cases ht : t.corExercito = cor
    · have hw : wrapInt (count + 1) = count + 1 :=
        wrapInt_of_ehInt (by unfold ehInt; unfold INT_MIN; unfold INT_MAX at *; omega)
      simp only [contarTerritorios, ht, if_true, hw]
      rw [ih (count + 1) (by omega) (by omega)]
      simp only [List.countP_cons, ht, decide_True, if_true, Nat.cast_add, Nat.cast_one]
      omega
    · simp only [contarTerritorios, ht, if_false]
      rw [ih count h0 (by omega)]
      simp [List.countP_cons, ht]

/-- C3: for mission id 1 (conquer three), `verificarVitoria` returns true
exactly when at least 3 territories have the player's colour; so 2 owned
territories give false and 3 give true. -/
theorem verificarVitoria_missao1 (mapa : List Territorio) (descricao cor : String)
    (hq : (mapa.length : Int) ≤ INT_MAX) :
    (verificarVitoria mapa ⟨1, descricao⟩ cor = true
        ↔ 3 ≤ mapa.countP (fun t => decide (t.corExercito = cor))) ∧
    (mapa.countP (fun t => decide (t.corExercito = cor)) = 2 →
        verificarVitoria mapa ⟨1, descricao⟩ cor = false) ∧
    (mapa.countP (fun t => decide (t.corExercito = cor)) = 3 →
        verificarVitoria mapa ⟨1, descricao⟩ cor = true) := by
  have hc := contarTerritorios_eq cor mapa 0 (le_refl 0) (by omega)
  have key : verificarVitoria mapa ⟨1, descricao⟩ cor = true
      ↔ 3 ≤ mapa.countP (fun t => decide (t.corExercito = cor)) := by
    simp only [verificarVitoria, if_true, hc, decide_eq_true_eq]
    omega
  refine ⟨key, ?_, ?_⟩
  · intro h2
    cases hv : verificarVitoria mapa ⟨1, descricao⟩ cor with
    | false => rfl
    | true => have := key.mp hv; omega
  · intro h3
    exact key.mpr (by omega)

/-- C3 on a five-territory map in which Red holds exactly three. -/
theorem verificarVitoria_missao1_witness :
    ((5 : Int) ≤ INT_MAX) ∧
    verificarVitoria [⟨"A", "Red", 5⟩, ⟨"B", "Red", 2⟩, ⟨"C", "Green", 3⟩,
        ⟨"D", "Red", 1⟩, ⟨"E", "Blue", 4⟩] ⟨1, "m"⟩ "Red" = true :=
  ⟨by decide,
   ((verificarVitoria_missao1 [⟨"A", "Red", 5⟩, ⟨"B", "Red", 2⟩, ⟨"C", "Green", 3⟩,
        ⟨"D", "Red", 1⟩, ⟨"E", "Blue", 4⟩] "m" "Red" (by decide)).2.2) (by decide)⟩

/-- The troops of the player's territories sum to a non-negative number when
no troop count is negative. -/
theorem soma_tropas_nonneg (cor : String) (l : List Territorio)
    (hpos : ∀ t ∈ l, 0 ≤ t.tropas) :
    0 ≤ ((l.filter (fun t => decide (t.corExercito = cor))).map Territorio.tropas).sum := by
  induction l with
  | nil => simp
  | cons t resto ih =>
    have h1 : 0 ≤ t.tropas := hpos t (List.mem_cons_self t resto)
    have h2 := ih (fun u hu => hpos u (List.mem_cons_of_mem t hu))
    by_cases ht : t.corExercito = cor
    · simp only [List.filter_cons, ht, decide_True, if_true, List.map_cons, List.sum_cons]
      simp only [ht] at h2
      omega
    · simp only [List.filter_cons, ht, decide_False, Bool.false_eq_true, if_false]
      exact h2

/-- The summing loop adds the troops of the player's territories to its
accumulator, as long as no troop count is negative and the final total fits
in an `int`. -/
theorem somarTropas_eq (cor : String) (l : List Territorio) :
    ∀ total : Int, 0 ≤ total → (∀ t ∈ l, 0 ≤ t.tropas) →
      total + ((l.filter (fun t => decide (t.corExercito = cor))).map Territorio.tropas).sum
        ≤ INT_MAX →
      somarTropas cor l total
        = total + ((l.filter (fun t => decide (t.corExercito = cor))).map Territorio.tropas).sum := by
  induction l with
  | nil => intro total _ _ _; simp [somarTropas]
  | cons t resto ih =>
    intro total h0 hpos hmax
    have h1 : 0 ≤ t.tropas := hpos t (List.mem_cons_self t resto)
    have hpos2 : ∀ u ∈ resto, 0 ≤ u.tropas := fun u hu => hpos u (List.mem_cons_of_mem t hu)
    have h2 := soma_tropas_nonneg cor resto hpos2
    by_cases ht : t.corExercito = cor
    · simp only [List.filter_cons, ht, decide_True, if_true, List.map_cons, List.sum_cons] at hmax
      have hw : wrapInt (total + t.tropas) = total + t.tropas :=
        wrapInt_of_ehInt (by unfold ehInt; unfold INT_MIN; unfold INT_MAX at *; omega)
      simp only [somarTropas, ht, if_true, hw]
      rw [ih (total + t.tropas) (by omega) hpos2 (by omega)]
      simp only [List.filter_cons, ht, decide_True, if_true, List.map_cons, List.sum_cons]
      omega
    · simp only [List.filter_cons, ht, decide_False, Bool.false_eq_true, if_false] at hmax
      simp only [somarTropas, ht, if_false]
      rw [ih total h0 hpos2 hmax]
      simp only [List.filter_cons, ht, decide_False, Bool.false_eq_true, if_false]

/-- C4: for mission id 2 (reach fifteen troops), on a map without negative
troop counts whose player-owned total fits in an `int`, `verificarVitoria`
returns true exactly when the troops of the player's territories sum to at
least 15; so a total of 14 gives false and a total of 15 gives true. -/
theorem verificarVitoria_missao2 (mapa : List Territorio) (descricao cor : String)
    (hpos : ∀ t ∈ mapa, 0 ≤ t.tropas)
    (hfit : ehInt
      ((mapa.filter (fun t => decide (t.corExercito = cor))).map Territorio.tropas).sum) :
    (verificarVitoria mapa ⟨2, descricao⟩ cor = true
        ↔ 15 ≤ ((mapa.filter (fun t => decide (t.corExercito = cor))).map
                  Territorio.tropas).sum) ∧
    (((mapa.filter (fun t => decide (t.corExercito = cor))).map Territorio.tropas).sum = 14 →
        verificarVitoria mapa ⟨2, descricao⟩ cor = false) ∧
    (((mapa.filter (fun t => decide (t.corExercito = cor))).map Territorio.tropas).sum = 15 →
        verificarVitoria mapa ⟨2, descricao⟩ cor = true) := by
  have hs := somarTropas_eq cor mapa 0 (le_refl 0) hpos (by rw [zero_add]; exact hfit.2)
  rw [zero_add] at hs
  have key : verificarVitoria mapa ⟨2, descricao⟩ cor = true
      ↔ 15 ≤ ((mapa.filter (fun t => decide (t.corExercito = cor))).map
                Territorio.tropas).sum := by
    simp [verificarVitoria, hs]
  refine ⟨key, ?_, ?_⟩
  · intro h14
    cases hv : verificarVitoria mapa ⟨2, descricao⟩ cor with
    | false => rfl
    | true => have := key.mp hv; omega
  · intro h15
    exact key.mpr (by omega)

/-- C4 on a map where Red holds 10 + 5 troops and Green holds 30. -/
theorem verificarVitoria_missao2_witness :
    ((∀ t ∈ ([⟨"A", "Red", 10⟩, ⟨"B", "Green", 30⟩, ⟨"C", "Red", 5⟩] : List Territorio),
        0 ≤ t.tropas) ∧
      ehInt ((([⟨"A", "Red", 10⟩, ⟨"B", "Green", 30⟩, ⟨"C", "Red", 5⟩] : List Territorio).filter
        (fun t => decide (t.corExercito = "Red"))).map Territorio.tropas).sum) ∧
    verificarVitoria [⟨"A", "Red", 10⟩, ⟨"B", "Green", 30⟩, ⟨"C", "Red", 5⟩] ⟨2, "m"⟩ "Red"
      = true :=
  ⟨⟨by decide, by decide⟩,
   ((verificarVitoria_missao2 [⟨"A", "Red", 10⟩, ⟨"B", "Green", 30⟩, ⟨"C", "Red", 5⟩]
      "m" "Red" (by decide) (by decide)).2.2) (by decide)⟩

/-- The loop of `case 3` returns 1 exactly when no territory has another colour. -/
theorem dominaTodos_iff (cor : String) (l : List Territorio) :
    dominaTodos cor l = true ↔ ∀ t ∈ l, t.corExercito = cor := by
  induction l with
  | nil => simp [dominaTodos]
  | cons t resto ih =>
    by_cases ht : t.corExercito = cor
    · simp [dominaTodos, ht, ih]
    · simp [dominaTodos, ht]

/-- C5: for mission id 3 (conquer all), `verificarVitoria` returns true exactly
when every territory has the player's colour, and it returns true on the empty
map. -/
theorem verificarVitoria_missao3 (mapa : List Territorio) (descricao cor : String) :
    (verificarVitoria mapa ⟨3, descricao⟩ cor = true ↔ ∀ t ∈ mapa, t.corExercito = cor) ∧
    verificarVitoria [] ⟨3, descricao⟩ cor = true := by
  refine ⟨?_, ?_⟩
  · have h := dominaTodos_iff cor mapa
    simpa [verificarVitoria] using h
  · simp [verificarVitoria, dominaTodos]

/-! ## Attack phase: acceptance and rejection -/

/-- When `faseDeAtaque` does not reach `simularAtaque`, the map is returned as
it was. -/
theorem faseDeAtaque_rejeitado (mapa : List Territorio) (cor : String)
    (entOrigem entDestino : Option Int) (rnd : Nat)
    (h : (faseDeAtaque mapa cor entOrigem entDestino rnd).1 ≠ Relato.atacou) :
    (faseDeAtaque mapa cor entOrigem entDestino rnd).2 = mapa := by
  unfold faseDeAtaque at h ⊢
  split
  · rfl
  · split
    · rfl
    · split
      · rfl
      · split
        · split
          · rfl
          · split
            · rfl
            · split
              · rfl
              · rename_i o d _ _ _ _ _ _ _ _ _
                exfalso
                apply h
                simp_all
        · rfl

/-- When `faseDeAtaque` reaches `simularAtaque`, both inputs were integers in
range, the origin is the player's with more than 1 troop, the destination is
not the player's, and the map returned is the old one with the two territories
replaced by what `simularAtaque` made of them. -/
theorem faseDeAtaque_atacou (mapa : List Territorio) (cor : String)
    (entOrigem entDestino : Option Int) (rnd : Nat)
    (h : (faseDeAtaque mapa cor entOrigem entDestino rnd).1 = Relato.atacou) :
    ∃ origem destino a b, entOrigem = some origem ∧ entDestino = some destino ∧
      0 ≤ origem ∧ origem < (mapa.length : Int) ∧
      0 ≤ destino ∧ destino < (mapa.length : Int) ∧
      mapa[origem.toNat]? = some a ∧ mapa[destino.toNat]? = some b ∧
      a.corExercito = cor ∧ b.corExercito ≠ cor ∧ 1 < a.tropas ∧
      (faseDeAtaque mapa cor entOrigem entDestino rnd).2
        = (mapa.set origem.toNat (simularAtaque rnd a b).1).set destino.toNat
            (simularAtaque rnd a b).2 := by
  cases entOrigem with
  | none => simp [faseDeAtaque] at h
  | some origem =>
    cases entDestino with
    | none => simp [faseDeAtaque] at h
    | some destino =>
      by_cases hidx : origem < 0 ∨ origem ≥ (mapa.length : Int) ∨
          destino < 0 ∨ destino ≥ (mapa.length : Int)
      · simp [faseDeAtaque, hidx] at h
      · have ho : origem.toNat < mapa.length := by omega
        have hd : destino.toNat < mapa.length := by omega
        have hoe : mapa[origem.toNat]? = some mapa[origem.toNat] := List.getElem?_eq_getElem ho
        have hde : mapa[destino.toNat]? = some mapa[destino.toNat] := List.getElem?_eq_getElem hd
        refine ⟨origem, destino, mapa[origem.toNat], mapa[destino.toNat], rfl, rfl,
          by omega, by omega, by omega, by omega, hoe, hde, ?_⟩
        simp only [faseDeAtaque, hidx, if_false, hoe, hde] at h ⊢
        by_cases h1 : mapa[origem.toNat].corExercito ≠ cor
        · simp [h1] at h
        · by_cases h2 : mapa[destino.toNat].corExercito = cor
          · simp [h1, h2] at h
          · by_cases h3 : mapa[origem.toNat].tropas ≤ 1
            · simp [h1, h2, h3] at h
            · simp only [h1, h2, h3, if_false]
              exact ⟨not_not.mp h1, h2, by omega, trivial⟩

/-- C6: for integer indices `origem` and `destino`, `faseDeAtaque` calls
`simularAtaque` exactly when both indices are in `[0, quantidade)`, the origin
has the player's colour, the destination has another colour and the origin has
more than 1 troop; in every other case the map is returned exactly as it was;
and when the call is made, the map returned is the old one with the origin and
the destination replaced by what `simularAtaque` made of those two territories. -/
theorem faseDeAtaque_ataca_sse (mapa : List Territorio) (cor : String)
    (origem destino : Int) (rnd : Nat) :
    ((faseDeAtaque mapa cor (some origem) (some destino) rnd).1 = Relato.atacou ↔
      (0 ≤ origem ∧ origem < (mapa.length : Int) ∧
       0 ≤ destino ∧ destino < (mapa.length : Int) ∧
       ∃ a b, mapa[origem.toNat]? = some a ∧ mapa[destino.toNat]? = some b ∧
         a.corExercito = cor ∧ b.corExercito ≠ cor ∧ 1 < a.tropas)) ∧
    ((faseDeAtaque mapa cor (some origem) (some destino) rnd).1 ≠ Relato.atacou →
      (faseDeAtaque mapa cor (some origem) (some destino) rnd).2 = mapa) ∧
    ((faseDeAtaque mapa cor (some origem) (some destino) rnd).1 = Relato.atacou →
      ∃ a b, mapa[origem.toNat]? = some a ∧ mapa[destino.toNat]? = some b ∧
        (faseDeAtaque mapa cor (some origem) (some destino) rnd).2
          = (mapa.set origem.toNat (simularAtaque rnd a b).1).set destino.toNat
              (simularAtaque rnd a b).2) := by
  refine ⟨⟨?_, ?_⟩, faseDeAtaque_rejeitado mapa cor (some origem) (some destino) rnd, ?_⟩
  · intro h
    obtain ⟨o, d, a, b, ho, hd, h1, h2, h3, h4, ha, hb, hca, hcb, ht, _⟩ :=
      faseDeAtaque_atacou mapa cor (some origem) (some destino) rnd h
    cases ho
    cases hd
    exact ⟨h1, h2, h3, h4, a, b, ha, hb, hca, hcb, ht⟩
  · rintro ⟨h1, h2, h3, h4, a, b, ha, hb, hca, hcb, ht⟩
    have hidx : ¬ (origem < 0 ∨ origem ≥ (mapa.length : Int) ∨
        destino < 0 ∨ destino ≥ (mapa.length : Int)) := by omega
    have ht2 : ¬ a.tropas ≤ 1 := by omega
    simp only [faseDeAtaque, hidx, if_false, ha, hb, hca, hcb, ht2, ne_eq, not_true_eq_false]
  · intro h
    obtain ⟨o, d, a, b, ho, hd, _, _, _, _, ha, hb, _, _, _, hres⟩ :=
      faseDeAtaque_atacou mapa cor (some origem) (some destino) rnd h
    cases ho
    cases hd
    exact ⟨a, b, ha, hb, hres⟩

/-- C6 at the scenario of the specification, attacker winning: the attack from
territory 0 to territory 2 reaches `simularAtaque` and the map returned holds
its two results, (A, Red, 4) and (C, Red, 1). -/
theorem faseDeAtaque_ataca_sse_witness :
    (faseDeAtaque [⟨"A", "Red", 5⟩, ⟨"B", "Red", 2⟩, ⟨"C", "Green", 3⟩,
        ⟨"D", "Blue", 1⟩, ⟨"E", "Blue", 4⟩] "Red" (some 0) (some 2) 1).1 = Relato.atacou ∧
    (faseDeAtaque [⟨"A", "Red", 5⟩, ⟨"B", "Red", 2⟩, ⟨"C", "Green", 3⟩,
        ⟨"D", "Blue", 1⟩, ⟨"E", "Blue", 4⟩] "Red" (some 0) (some 2) 1).2
      = [⟨"A", "Red", 4⟩, ⟨"B", "Red", 2⟩, ⟨"C", "Red", 1⟩, ⟨"D", "Blue", 1⟩, ⟨"E", "Blue", 4⟩] ∧
    ∃ a b, ([⟨"A", "Red", 5⟩, ⟨"B", "Red", 2⟩, ⟨"C", "Green", 3⟩,
        ⟨"D", "Blue", 1⟩, ⟨"E", "Blue", 4⟩] : List Territorio)[(0 : Int).toNat]? = some a ∧
      ([⟨"A", "Red", 5⟩, ⟨"B", "Red", 2⟩, ⟨"C", "Green", 3⟩,
        ⟨"D", "Blue", 1⟩, ⟨"E", "Blue", 4⟩] : List Territorio)[(2 : Int).toNat]? = some b ∧
      (faseDeAtaque [⟨"A", "Red", 5⟩, ⟨"B", "Red", 2⟩, ⟨"C", "Green", 3⟩,
        ⟨"D", "Blue", 1⟩, ⟨"E", "Blue", 4⟩] "Red" (some 0) (some 2) 1).2
        = (([⟨"A", "Red", 5⟩, ⟨"B", "Red", 2⟩, ⟨"C", "Green", 3⟩,
            ⟨"D", "Blue", 1⟩, ⟨"E", "Blue", 4⟩] : List Territorio).set (0 : Int).toNat
              (simularAtaque 1 a b).1).set (2 : Int).toNat (simularAtaque 1 a b).2 :=
  ⟨by decide, by decide,
   (faseDeAtaque_ataca_sse [⟨"A", "Red", 5⟩, ⟨"B", "Red", 2⟩, ⟨"C", "Green", 3⟩,
        ⟨"D", "Blue", 1⟩, ⟨"E", "Blue", 4⟩] "Red" 0 2 1).2.2 (by decide)⟩

/-! ## Resolved attacks -/

/-- With more than 1 troop at the origin, the decrement does not wrap and
`simularAtaque` leaves the origin with one troop less, whatever the outcome. -/
theorem simularAtaque_origem_tropas (rnd : Nat) (a b : Territorio)
    (ht : 1 < a.tropas) (hmax : a.tropas ≤ INT_MAX) :
    (simularAtaque rnd a b).1.tropas = a.tropas - 1 := by
  have hw : wrapInt (a.tropas - 1) = a.tropas - 1 :=
    wrapInt_of_ehInt (by unfold ehInt; unfold INT_MIN; unfold INT_MAX at *; omega)
  have hc : ¬ a.tropas - 1 < 1 := by omega
  by_cases hr : rnd % 2 = 1
  · simp [simularAtaque, hr, hw]
  · simp [simularAtaque, hr, hw, hc]

/-- The function `simularAtaque` writes neither name nor the origin's colour. -/
theorem simularAtaque_nomes (rnd : Nat) (a b : Territorio) :
    (simularAtaque rnd a b).1.nome = a.nome ∧
    (simularAtaque rnd a b).2.nome = b.nome ∧
    (simularAtaque rnd a b).1.corExercito = a.corExercito := by
  by_cases hr : rnd % 2 = 1
  · simp [simularAtaque, hr]
  · by_cases hc : wrapInt (a.tropas - 1) < 1
    · simp [simularAtaque, hr, hc]
    · simp [simularAtaque, hr, hc]

/-- C7 (as amended): on valid combat inputs, when the defender wins the only
change is the attacker's troop count; when the attacker wins the attacker's
troop count and the defender's colour both change, and the defender's troop
count changes unless it already was 1. The attacker's colour never changes. -/
theorem simularAtaque_mudancas (rnd : Nat) (a b : Territorio) (cor : String)
    (hca : a.corExercito = cor) (hcb : b.corExercito ≠ cor)
    (ht : 1 < a.tropas) (hmax : a.tropas ≤ INT_MAX) :
    (rnd % 2 = 0 →
      (simularAtaque rnd a b).1.tropas ≠ a.tropas ∧
      (simularAtaque rnd a b).2.tropas = b.tropas ∧
      (simularAtaque rnd a b).2.corExercito = b.corExercito ∧
      (simularAtaque rnd a b).1.corExercito = a.corExercito) ∧
    (rnd % 2 = 1 →
      (simularAtaque rnd a b).1.tropas ≠ a.tropas ∧
      (simularAtaque rnd a b).2.corExercito ≠ b.corExercito ∧
      ((simularAtaque rnd a b).2.tropas ≠ b.tropas ↔ b.tropas ≠ 1) ∧
      (simularAtaque rnd a b).1.corExercito = a.corExercito) := by
  have h1 := simularAtaque_origem_tropas rnd a b ht hmax
  have h2 := (simularAtaque_nomes rnd a b).2.2
  refine ⟨?_, ?_⟩
  · intro hr
    refine ⟨by omega, ?_, ?_, h2⟩
    · simp [simularAtaque, hr]
    · simp [simularAtaque, hr]
  · intro hr
    refine ⟨by omega, ?_, ?_, h2⟩
    · simp only [simularAtaque, hr, if_true, hca]
      exact fun h => hcb h.symm
    · simp only [simularAtaque, hr, if_true]
      constructor
      · intro h hb; exact h hb.symm
      · intro h hb; exact h hb.symm

/-- C7 (as amended) at the scenario of the specification, attacker winning. -/
theorem simularAtaque_mudancas_witness :
    (("Red" : String) = "Red" ∧ ("Green" : String) ≠ "Red" ∧ (1 : Int) < 5 ∧ (5 : Int) ≤ INT_MAX) ∧
    (simularAtaque 1 ⟨"A", "Red", 5⟩ ⟨"C", "Green", 3⟩).1.tropas ≠ 5 ∧
    (simularAtaque 1 ⟨"A", "Red", 5⟩ ⟨"C", "Green", 3⟩).2.corExercito ≠ "Green" :=
  ⟨by decide,
   ((simularAtaque_mudancas 1 ⟨"A", "Red", 5⟩ ⟨"C", "Green", 3⟩ "Red"
      (by decide) (by decide) (by decide) (by decide)).2 (by decide)).1,
   ((simularAtaque_mudancas 1 ⟨"A", "Red", 5⟩ ⟨"C", "Green", 3⟩ "Red"
      (by decide) (by decide) (by decide) (by decide)).2 (by decide)).2.1⟩

/-- C7 as written fails: at the scenario of the specification (player Red,
(Red, 5) attacks (Green, 3), attacker wins) the inputs are valid and the
attacker's troop count, the defender's troop count and the defender's colour
all three change, so it is not the case that exactly one of them changes. -/
theorem simularAtaque_tres_mudancas :
    (("Red" : String) = "Red" ∧ ("Green" : String) ≠ "Red" ∧ (1 : Int) < 5) ∧
    ((simularAtaque 1 ⟨"A", "Red", 5⟩ ⟨"C", "Green", 3⟩).1.tropas ≠ 5 ∧
     (simularAtaque 1 ⟨"A", "Red", 5⟩ ⟨"C", "Green", 3⟩).2.tropas ≠ 3 ∧
     (simularAtaque 1 ⟨"A", "Red", 5⟩ ⟨"C", "Green", 3⟩).2.corExercito ≠ "Green") ∧
    ¬ (((simularAtaque 1 ⟨"A", "Red", 5⟩ ⟨"C", "Green", 3⟩).1.tropas ≠ 5 ∧
        (simularAtaque 1 ⟨"A", "Red", 5⟩ ⟨"C", "Green", 3⟩).2.tropas = 3 ∧
        (simularAtaque 1 ⟨"A", "Red", 5⟩ ⟨"C", "Green", 3⟩).2.corExercito = "Green") ∨
       ((simularAtaque 1 ⟨"A", "Red", 5⟩ ⟨"C", "Green", 3⟩).1.tropas = 5 ∧
        (simularAtaque 1 ⟨"A", "Red", 5⟩ ⟨"C", "Green", 3⟩).2.tropas ≠ 3 ∧
        (simularAtaque 1 ⟨"A", "Red", 5⟩ ⟨"C", "Green", 3⟩).2.corExercito = "Green") ∨
       ((simularAtaque 1 ⟨"A", "Red", 5⟩ ⟨"C", "Green", 3⟩).1.tropas = 5 ∧
        (simularAtaque 1 ⟨"A", "Red", 5⟩ ⟨"C", "Green", 3⟩).2.tropas = 3 ∧
        (simularAtaque 1 ⟨"A", "Red", 5⟩ ⟨"C", "Green", 3⟩).2.corExercito ≠ "Green")) := by
  decide

/-- The defender after `simularAtaque` either has exactly 1 troop (attacker
won) or is the defender as it was (defender won). -/
theorem simularAtaque_destino (rnd : Nat) (a b : Territorio) :
    (simularAtaque rnd a b).2.tropas = 1 ∨ (simularAtaque rnd a b).2 = b := by
  by_cases hr : rnd % 2 = 1
  · left; simp [simularAtaque, hr]
  · right; simp [simularAtaque, hr]

/-- Reading a list after two writes at distinct positions in range. -/
theorem getElem?_set_set {α : Type} (l : List α) (i j : Nat) (x y : α)
    (hij : i ≠ j) (hi : i < l.length) (hj : j < l.length) :
    ((l.set i x).set j y)[i]? = some x ∧ ((l.set i x).set j y)[j]? = some y ∧
    ∀ k, k ≠ i → k ≠ j → ((l.set i x).set j y)[k]? = l[k]? := by
  refine ⟨?_, ?_, ?_⟩
  · rw [List.getElem?_set_ne (Ne.symm hij), List.getElem?_set_self hi]
  · rw [List.getElem?_set_self (by simpa using hj)]
  · intro k hki hkj
    rw [List.getElem?_set_ne (Ne.symm hkj), List.getElem?_set_ne (Ne.symm hki)]

/-- The map after an accepted attack, read position by position: the origin
and the destination are distinct positions holding the two results of
`simularAtaque`, and every other position holds what it held before. -/
theorem faseDeAtaque_atacou_leitura (mapa : List Territorio) (cor : String)
    (origem destino : Int) (rnd : Nat)
    (h : (faseDeAtaque mapa cor (some origem) (some destino) rnd).1 = Relato.atacou) :
    ∃ a b, mapa[origem.toNat]? = some a ∧ mapa[destino.toNat]? = some b ∧
      0 ≤ origem ∧ 0 ≤ destino ∧ origem ≠ destino ∧
      a.corExercito = cor ∧ b.corExercito ≠ cor ∧ 1 < a.tropas ∧
      (faseDeAtaque mapa cor (some origem) (some destino) rnd).2
        = (mapa.set origem.toNat (simularAtaque rnd a b).1).set destino.toNat
            (simularAtaque rnd a b).2 ∧
      (faseDeAtaque mapa cor (some origem) (some destino) rnd).2[origem.toNat]?
        = some (simularAtaque rnd a b).1 ∧
      (faseDeAtaque mapa cor (some origem) (some destino) rnd).2[destino.toNat]?
        = some (simularAtaque rnd a b).2 ∧
      ∀ k, k ≠ origem.toNat → k ≠ destino.toNat →
        (faseDeAtaque mapa cor (some origem) (some destino) rnd).2[k]? = mapa[k]? := by
  obtain ⟨o, d, a, b, ho, hd, h1, h2, h3, h4, ha, hb, hca, hcb, ht, hres⟩ :=
    faseDeAtaque_atacou mapa cor (some origem) (some destino) rnd h
  cases ho
  cases hd
  have hne : origem ≠ destino := by
    intro hod
    rw [hod, hb] at ha
    cases ha
    exact hcb hca
  have hne2 : origem.toNat ≠ destino.toNat := by omega
  have hrd := getElem?_set_set mapa origem.toNat destino.toNat
    (simularAtaque rnd a b).1 (simularAtaque rnd a b).2 hne2 (by omega) (by omega)
  rw [← hres] at hrd
  exact ⟨a, b, ha, hb, h1, h3, hne, hca, hcb, ht, hres, hrd.1, hrd.2.1, hrd.2.2⟩

/-- C8: on an attack that passes the checks of `faseDeAtaque`, the origin held
`t > 1` troops, holds exactly `t - 1` afterwards whatever the outcome, which is
at least 1 and not negative, and the test `origem->tropas < 1` of the clamp is
false. -/
theorem faseDeAtaque_origem_perde_uma (mapa : List Territorio) (cor : String)
    (origem destino : Int) (rnd : Nat) (a : Territorio)
    (h : (faseDeAtaque mapa cor (some origem) (some destino) rnd).1 = Relato.atacou)
    (ha : mapa[origem.toNat]? = some a) (hint : ehInt a.tropas) :
    1 < a.tropas ∧ ¬ (wrapInt (a.tropas - 1) < 1) ∧
    ∃ a1, (faseDeAtaque mapa cor (some origem) (some destino) rnd).2[origem.toNat]? = some a1 ∧
      a1.tropas = a.tropas - 1 ∧ 1 ≤ a1.tropas ∧ 0 ≤ a1.tropas := by
  obtain ⟨a0, b, ha0, _, _, _, _, _, _, ht, _, hro, _, _⟩ :=
    faseDeAtaque_atacou_leitura mapa cor origem destino rnd h
  rw [ha] at ha0
  cases ha0
  have hmax : a.tropas ≤ INT_MAX := hint.2
  have hw : wrapInt (a.tropas - 1) = a.tropas - 1 :=
    wrapInt_of_ehInt (by unfold ehInt; unfold INT_MIN; unfold INT_MAX at *; omega)
  have ht1 := simularAtaque_origem_tropas rnd a b ht hmax
  refine ⟨ht, by rw [hw]; omega, (simularAtaque rnd a b).1, hro, ht1, by omega, by omega⟩

/-- C8 at the scenario of the specification: Red attacks from territory 0
(5 troops) to territory 2 and the defender holds. -/
theorem faseDeAtaque_origem_perde_uma_witness :
    ((faseDeAtaque [⟨"A", "Red", 5⟩, ⟨"B", "Red", 2⟩, ⟨"C", "Green", 3⟩,
        ⟨"D", "Blue", 1⟩, ⟨"E", "Blue", 4⟩] "Red" (some 0) (some 2) 0).1 = Relato.atacou ∧
      ([⟨"A", "Red", 5⟩, ⟨"B", "Red", 2⟩, ⟨"C", "Green", 3⟩,
        ⟨"D", "Blue", 1⟩, ⟨"E", "Blue", 4⟩] : List Territorio)[(0 : Int).toNat]?
          = some ⟨"A", "Red", 5⟩ ∧
      ehInt 5) ∧
    ∃ a1, (faseDeAtaque [⟨"A", "Red", 5⟩, ⟨"B", "Red", 2⟩, ⟨"C", "Green", 3⟩,
        ⟨"D", "Blue", 1⟩, ⟨"E", "Blue", 4⟩] "Red" (some 0) (some 2) 0).2[(0 : Int).toNat]?
          = some a1 ∧
      a1.tropas = 5 - 1 ∧ 1 ≤ a1.tropas ∧ 0 ≤ a1.tropas :=
  ⟨by decide,
   (faseDeAtaque_origem_perde_uma [⟨"A", "Red", 5⟩, ⟨"B", "Red", 2⟩, ⟨"C", "Green", 3⟩,
        ⟨"D", "Blue", 1⟩, ⟨"E", "Blue", 4⟩] "Red" 0 2 0 ⟨"A", "Red", 5⟩
      (by decide) (by decide) (by decide)).2.2⟩

/-- C9: if no troop count of the map is negative (and all are `int` values),
then after `faseDeAtaque`, whatever the two inputs read and whatever the
outcome of the combat, no troop count of the map is negative. -/
theorem faseDeAtaque_tropas_nao_negativas (mapa : List Territorio) (cor : String)
    (entOrigem entDestino : Option Int) (rnd : Nat)
    (hpos : ∀ t ∈ mapa, 0 ≤ t.tropas) (hint : tropasEmInt mapa) :
    ∀ t ∈ (faseDeAtaque mapa cor entOrigem entDestino rnd).2, 0 ≤ t.tropas := by
  by_cases h : (faseDeAtaque mapa cor entOrigem entDestino rnd).1 = Relato.atacou
  · obtain ⟨o, d, a, b, _, _, _, _, _, _, ha, hb, _, _, ht, hres⟩ :=
      faseDeAtaque_atacou mapa cor entOrigem entDestino rnd h
    have hamem : a ∈ mapa := List.mem_iff_getElem?.mpr ⟨o.toNat, ha⟩
    have hbmem : b ∈ mapa := List.mem_iff_getElem?.mpr ⟨d.toNat, hb⟩
    have h1 := simularAtaque_origem_tropas rnd a b ht (hint a hamem).2
    have h2 := simularAtaque_destino rnd a b
    have hb0 := hpos b hbmem
    intro t htm
    rw [hres] at htm
    rcases List.mem_or_eq_of_mem_set htm with htm1 | rfl
    · rcases List.mem_or_eq_of_mem_set htm1 with htm2 | rfl
      · exact hpos t htm2
      · omega
    · rcases h2 with h2 | h2
      · omega
      · rw [h2]; exact hb0
  · rw [faseDeAtaque_rejeitado mapa cor entOrigem entDestino rnd h]
    exact hpos

/-- C9 at the scenario of the specification, attacker winning. -/
theorem faseDeAtaque_tropas_nao_negativas_witness :
    ((∀ t ∈ ([⟨"A", "Red", 5⟩, ⟨"B", "Red", 2⟩, ⟨"C", "Green", 3⟩,
        ⟨"D", "Blue", 1⟩, ⟨"E", "Blue", 4⟩] : List Territorio), 0 ≤ t.tropas) ∧
      tropasEmInt [⟨"A", "Red", 5⟩, ⟨"B", "Red", 2⟩, ⟨"C", "Green", 3⟩,
        ⟨"D", "Blue", 1⟩, ⟨"E", "Blue", 4⟩]) ∧
    ∀ t ∈ (faseDeAtaque [⟨"A", "Red", 5⟩, ⟨"B", "Red", 2⟩, ⟨"C", "Green", 3⟩,
        ⟨"D", "Blue", 1⟩, ⟨"E", "Blue", 4⟩] "Red" (some 0) (some 2) 1).2, 0 ≤ t.tropas :=
  ⟨⟨by decide, by decide⟩,
   faseDeAtaque_tropas_nao_negativas [⟨"A", "Red", 5⟩, ⟨"B", "Red", 2⟩, ⟨"C", "Green", 3⟩,
        ⟨"D", "Blue", 1⟩, ⟨"E", "Blue", 4⟩] "Red" (some 0) (some 2) 1
      (by decide) (by decide)⟩

/-- C10: after an accepted attack from `origem` to `destino`, whatever the
outcome, the map has the same length, every territory at another index is
unchanged, and the names of both territories and the colour of the origin are
unchanged. -/
theorem faseDeAtaque_moldura (mapa : List Territorio) (cor : String)
    (origem destino : Int) (rnd : Nat)
    (h : (faseDeAtaque mapa cor (some origem) (some destino) rnd).1 = Relato.atacou) :
    (faseDeAtaque mapa cor (some origem) (some destino) rnd).2.length = mapa.length ∧
    (∀ i : Nat, (i : Int) ≠ origem → (i : Int) ≠ destino →
      (faseDeAtaque mapa cor (some origem) (some destino) rnd).2[i]? = mapa[i]?) ∧
    ∃ a b a1 b1, mapa[origem.toNat]? = some a ∧ mapa[destino.toNat]? = some b ∧
      (faseDeAtaque mapa cor (some origem) (some destino) rnd).2[origem.toNat]? = some a1 ∧
      (faseDeAtaque mapa cor (some origem) (some destino) rnd).2[destino.toNat]? = some b1 ∧
      a1.nome = a.nome ∧ b1.nome = b.nome ∧ a1.corExercito = a.corExercito := by
  obtain ⟨a, b, ha, hb, ho0, hd0, _, _, _, _, hres, hro, hrd, hrk⟩ :=
    faseDeAtaque_atacou_leitura mapa cor origem destino rnd h
  have hn := simularAtaque_nomes rnd a b
  refine ⟨?_, ?_, a, b, (simularAtaque rnd a b).1, (simularAtaque rnd a b).2,
    ha, hb, hro, hrd, hn.1, hn.2.1, hn.2.2⟩
  · rw [hres]; simp
  · intro i hio hid
    exact hrk i (by omega) (by omega)

/-- C10 at the scenario of the specification, attacker winning: territories
1, 3 and 4 are untouched and the map keeps its five entries. -/
theorem faseDeAtaque_moldura_witness :
    (faseDeAtaque [⟨"A", "Red", 5⟩, ⟨"B", "Red", 2⟩, ⟨"C", "Green", 3⟩,
        ⟨"D", "Blue", 1⟩, ⟨"E", "Blue", 4⟩] "Red" (some 0) (some 2) 1).1 = Relato.atacou ∧
    (faseDeAtaque [⟨"A", "Red", 5⟩, ⟨"B", "Red", 2⟩, ⟨"C", "Green", 3⟩,
        ⟨"D", "Blue", 1⟩, ⟨"E", "Blue", 4⟩] "Red" (some 0) (some 2) 1).2.length = 5 ∧
    (faseDeAtaque [⟨"A", "Red", 5⟩, ⟨"B", "Red", 2⟩, ⟨"C", "Green", 3⟩,
        ⟨"D", "Blue", 1⟩, ⟨"E", "Blue", 4⟩] "Red" (some 0) (some 2) 1).2[3]?
      = some ⟨"D", "Blue", 1⟩ :=
  ⟨by decide,
   (faseDeAtaque_moldura [⟨"A", "Red", 5⟩, ⟨"B", "Red", 2⟩, ⟨"C", "Green", 3⟩,
        ⟨"D", "Blue", 1⟩, ⟨"E", "Blue", 4⟩] "Red" 0 2 1 (by decide)).1,
   (faseDeAtaque_moldura [⟨"A", "Red", 5⟩, ⟨"B", "Red", 2⟩, ⟨"C", "Green", 3⟩,
        ⟨"D", "Blue", 1⟩, ⟨"E", "Blue", 4⟩] "Red" 0 2 1 (by decide)).2.1 3
      (by decide) (by decide)⟩

/-! ## Attack phase: the three rejections -/

/-- C11: when the origin or the destination read is outside `[0, quantidade)`,
`faseDeAtaque` reports the invalid index and returns the map as it was; this
is decided by the indices and the length alone, before any territory is read. -/
theorem faseDeAtaque_indice_invalido (mapa : List Territorio) (cor : String)
    (origem destino : Int) (rnd : Nat)
    (h : origem < 0 ∨ origem ≥ (mapa.length : Int) ∨
         destino < 0 ∨ destino ≥ (mapa.length : Int)) :
    faseDeAtaque mapa cor (some origem) (some destino) rnd = (Relato.indiceInvalido, mapa) := by
  simp only [faseDeAtaque, h, if_true]

/-- C11 on the scenario map: origin -1, destination 5 out of five territories. -/
theorem faseDeAtaque_indice_invalido_witness :
    ((-1 : Int) < 0 ∨ (-1 : Int) ≥ (([⟨"A", "Red", 5⟩, ⟨"B", "Red", 2⟩, ⟨"C", "Green", 3⟩,
        ⟨"D", "Blue", 1⟩, ⟨"E", "Blue", 4⟩] : List Territorio).length : Int) ∨
      (5 : Int) < 0 ∨ (5 : Int) ≥ (([⟨"A", "Red", 5⟩, ⟨"B", "Red", 2⟩, ⟨"C", "Green", 3⟩,
        ⟨"D", "Blue", 1⟩, ⟨"E", "Blue", 4⟩] : List Territorio).length : Int)) ∧
    faseDeAtaque [⟨"A", "Red", 5⟩, ⟨"B", "Red", 2⟩, ⟨"C", "Green", 3⟩,
        ⟨"D", "Blue", 1⟩, ⟨"E", "Blue", 4⟩] "Red" (some (-1)) (some 5) 1
      = (Relato.indiceInvalido, [⟨"A", "Red", 5⟩, ⟨"B", "Red", 2⟩, ⟨"C", "Green", 3⟩,
        ⟨"D", "Blue", 1⟩, ⟨"E", "Blue", 4⟩]) :=
  ⟨by decide,
   faseDeAtaque_indice_invalido [⟨"A", "Red", 5⟩, ⟨"B", "Red", 2⟩, ⟨"C", "Green", 3⟩,
        ⟨"D", "Blue", 1⟩, ⟨"E", "Blue", 4⟩] "Red" (-1) 5 1 (by decide)⟩

/-- C12: an attack from an in-range index `i` to itself is rejected and the map
is returned as it was; when territory `i` has the player's colour the report is
the one for a destination that already is the player's, whatever its troop
count; and every accepted attack has its origin different from its destination. -/
theorem faseDeAtaque_mesmo_indice (mapa : List Territorio) (cor : String)
    (i : Int) (rnd : Nat) (h0 : 0 ≤ i) (hlen : i < (mapa.length : Int)) :
    (faseDeAtaque mapa cor (some i) (some i) rnd).1 ≠ Relato.atacou ∧
    (faseDeAtaque mapa cor (some i) (some i) rnd).2 = mapa ∧
    (∀ a, mapa[i.toNat]? = some a → a.corExercito = cor →
      (faseDeAtaque mapa cor (some i) (some i) rnd).1 = Relato.destinoProprio) ∧
    (∀ origem destino : Int,
      (faseDeAtaque mapa cor (some origem) (some destino) rnd).1 = Relato.atacou →
      origem ≠ destino) := by
  have hne : (faseDeAtaque mapa cor (some i) (some i) rnd).1 ≠ Relato.atacou := by
    intro hat
    obtain ⟨_, _, _, _, _, _, hdif, _⟩ := faseDeAtaque_atacou_leitura mapa cor i i rnd hat
    exact hdif rfl
  refine ⟨hne, faseDeAtaque_rejeitado mapa cor (some i) (some i) rnd hne, ?_, ?_⟩
  · intro a ha hca
    have hidx : ¬ (i < 0 ∨ i ≥ (mapa.length : Int) ∨ i < 0 ∨ i ≥ (mapa.length : Int)) := by
      omega
    simp only [faseDeAtaque, hidx, if_false, ha, hca, ne_eq, not_true_eq_false, if_true]
  · intro origem destino hat
    obtain ⟨_, _, _, _, _, _, hdif, _⟩ :=
      faseDeAtaque_atacou_leitura mapa cor origem destino rnd hat
    exact hdif

/-- C12 on the scenario map: Red attacks territory 0 from territory 0. -/
theorem faseDeAtaque_mesmo_indice_witness :
    ((0 : Int) ≤ 0 ∧ (0 : Int) < (([⟨"A", "Red", 5⟩, ⟨"B", "Red", 2⟩, ⟨"C", "Green", 3⟩,
        ⟨"D", "Blue", 1⟩, ⟨"E", "Blue", 4⟩] : List Territorio).length : Int)) ∧
    (faseDeAtaque [⟨"A", "Red", 5⟩, ⟨"B", "Red", 2⟩, ⟨"C", "Green", 3⟩,
        ⟨"D", "Blue", 1⟩, ⟨"E", "Blue", 4⟩] "Red" (some 0) (some 0) 1).1
      = Relato.destinoProprio :=
  ⟨by decide,
   (faseDeAtaque_mesmo_indice [⟨"A", "Red", 5⟩, ⟨"B", "Red", 2⟩, ⟨"C", "Green", 3⟩,
        ⟨"D", "Blue", 1⟩, ⟨"E", "Blue", 4⟩] "Red" 0 1 (by decide) (by decide)).2.2.1
      ⟨"A", "Red", 5⟩ (by decide) (by decide)⟩

/-- C13: with both indices in range, the origin of the player's colour, the
destination of another colour and at most 1 troop at the origin, `faseDeAtaque`
reports insufficient troops and returns the map as it was. -/
theorem faseDeAtaque_tropas_insuficientes (mapa : List Territorio) (cor : String)
    (origem destino : Int) (rnd : Nat) (a b : Territorio)
    (ho0 : 0 ≤ origem) (ho : origem < (mapa.length : Int))
    (hd0 : 0 ≤ destino) (hd : destino < (mapa.length : Int))
    (ha : mapa[origem.toNat]? = some a) (hb : mapa[destino.toNat]? = some b)
    (hca : a.corExercito = cor) (hcb : b.corExercito ≠ cor) (ht : a.tropas ≤ 1) :
    faseDeAtaque mapa cor (some origem) (some destino) rnd
      = (Relato.tropasInsuficientes, mapa) := by
  have hidx : ¬ (origem < 0 ∨ origem ≥ (mapa.length : Int) ∨
      destino < 0 ∨ destino ≥ (mapa.length : Int)) := by omega
  simp only [faseDeAtaque, hidx, if_false, ha, hb, hca, hcb, ht, ne_eq, not_true_eq_false,
    if_true]

/-- C13 at the scenario of the specification: the attacker has exactly 1 troop. -/
theorem faseDeAtaque_tropas_insuficientes_witness :
    faseDeAtaque [⟨"A", "Red", 1⟩, ⟨"B", "Red", 2⟩, ⟨"C", "Green", 3⟩] "Red" (some 0) (some 2) 1
      = (Relato.tropasInsuficientes, [⟨"A", "Red", 1⟩, ⟨"B", "Red", 2⟩, ⟨"C", "Green", 3⟩]) :=
  faseDeAtaque_tropas_insuficientes [⟨"A", "Red", 1⟩, ⟨"B", "Red", 2⟩, ⟨"C", "Green", 3⟩]
    "Red" 0 2 1 ⟨"A", "Red", 1⟩ ⟨"C", "Green", 3⟩
    (by decide) (by decide) (by decide) (by decide) (by decide) (by decide)
    (by decide) (by decide) (by decide)

/-! ## Game loop -/

/-- C14: in a playing state (`venceu = 0`), for every integer menu command,
the session is marked won exactly when the command is 2 and `verificarVitoria`
holds on the current map; the loop ends after the command exactly when the
command is 0 or the session was just marked won; every other command leaves
the loop running and not won; and every command other than 1 leaves the map
as it was. -/
theorem iteracao_comando (missao : Missao) (cor : String) (j : Jogo) (op : Int)
    (entOrigem entDestino : Option Int) (rnd : Nat) (hj : j.venceu = false) :
    ((iteracao missao cor j ⟨some op, entOrigem, entDestino, rnd⟩).2.1.venceu = true ↔
      (op = 2 ∧ verificarVitoria j.mapa missao cor = true)) ∧
    ((iteracao missao cor j ⟨some op, entOrigem, entDestino, rnd⟩).2.2 = false ↔
      (op = 0 ∨
        (iteracao missao cor j ⟨some op, entOrigem, entDestino, rnd⟩).2.1.venceu = true)) ∧
    (op ≠ 0 → ¬ (op = 2 ∧ verificarVitoria j.mapa missao cor = true) →
      (iteracao missao cor j ⟨some op, entOrigem, entDestino, rnd⟩).2.2 = true ∧
      (iteracao missao cor j ⟨some op, entOrigem, entDestino, rnd⟩).2.1.venceu = false) ∧
    (op ≠ 1 →
      (iteracao missao cor j ⟨some op, entOrigem, entDestino, rnd⟩).2.1.mapa = j.mapa) := by
  by_cases h1 : op = 1
  · subst h1
    simp [iteracao, continua, hj]
  · by_cases h2 : op = 2
    · subst h2
      by_cases hv : verificarVitoria j.mapa missao cor = true
      · simp [iteracao, continua, hv]
      · simp [iteracao, continua, hj, hv]
    · by_cases h0 : op = 0
      · subst h0
        simp [iteracao, continua, hj]
      · simp [iteracao, continua, hj, h0, h1, h2]

/-- C14 on the scenario map with mission 1: Red holds two territories, so
command 2 neither marks the session won nor ends the loop. -/
theorem iteracao_comando_witness :
    ((inicio [⟨"A", "Red", 5⟩, ⟨"B", "Red", 2⟩, ⟨"C", "Green", 3⟩] 7).venceu = false) ∧
    ((iteracao ⟨1, "m"⟩ "Red" (inicio [⟨"A", "Red", 5⟩, ⟨"B", "Red", 2⟩, ⟨"C", "Green", 3⟩] 7)
        ⟨some 2, none, none, 0⟩).2.2 = true ∧
     (iteracao ⟨1, "m"⟩ "Red" (inicio [⟨"A", "Red", 5⟩, ⟨"B", "Red", 2⟩, ⟨"C", "Green", 3⟩] 7)
        ⟨some 2, none, none, 0⟩).2.1.venceu = false) :=
  ⟨by decide,
   (iteracao_comando ⟨1, "m"⟩ "Red"
      (inicio [⟨"A", "Red", 5⟩, ⟨"B", "Red", 2⟩, ⟨"C", "Green", 3⟩] 7) 2 none none 0
      (by decide)).2.2.1 (by decide) (by decide)⟩

/-- In every iteration entered because the loop condition held (`opcao != 0`
and `venceu == 0`, as after any earlier iteration that did not end the loop), a
menu input that is not an integer is reported as invalid, changes no variable
and leaves the loop running. -/
theorem iteracao_entrada_invalida_depois (missao : Missao) (cor : String) (j : Jogo)
    (entOrigem entDestino : Option Int) (rnd : Nat) (hc : continua j = true) :
    iteracao missao cor j ⟨none, entOrigem, entDestino, rnd⟩
      = (Aviso.entradaInvalida, j, true) := by
  simp [iteracao, hc]

/-- C15, the first iteration: `opcao` has never been written; when the
indeterminate value it holds is 0, a menu input that is not an integer is
reported as invalid and changes neither the map nor the flag, but the loop
condition `opcao != 0 && !venceu` is false and the loop ends. -/
theorem iteracao_primeira_entrada_invalida (missao : Missao) (cor : String)
    (mapa : List Territorio) (entOrigem entDestino : Option Int) (rnd : Nat) :
    iteracao missao cor (inicio mapa 0) ⟨none, entOrigem, entDestino, rnd⟩
      = (Aviso.entradaInvalida, inicio mapa 0, false) := by
  simp [iteracao, continua, inicio]

/-! ## Mission evaluator: unknown ids -/

/-- C17: for every mission id other than 1 and 2, `verificarVitoria` returns
what it returns for id 3: true exactly when every territory has the player's
colour. -/
theorem verificarVitoria_outros_ids (mapa : List Territorio) (id : Int)
    (descricao descricao3 cor : String) (h1 : id ≠ 1) (h2 : id ≠ 2) :
    verificarVitoria mapa ⟨id, descricao⟩ cor = verificarVitoria mapa ⟨3, descricao3⟩ cor ∧
    (verificarVitoria mapa ⟨id, descricao⟩ cor = true ↔ ∀ t ∈ mapa, t.corExercito = cor) := by
  have h : verificarVitoria mapa ⟨id, descricao⟩ cor = dominaTodos cor mapa := by
    simp [verificarVitoria, h1, h2]
  have h3 : verificarVitoria mapa ⟨3, descricao3⟩ cor = dominaTodos cor mapa := by
    simp [verificarVitoria]
  refine ⟨by rw [h, h3], ?_⟩
  rw [h]
  exact dominaTodos_iff cor mapa

/-- C17 at ids 0, -4 and 7 on a map that Red holds entirely. -/
theorem verificarVitoria_outros_ids_witness :
    (((-4 : Int) ≠ 1 ∧ (-4 : Int) ≠ 2) ∧
      verificarVitoria [⟨"A", "Red", 5⟩, ⟨"B", "Red", 2⟩] ⟨-4, "m"⟩ "Red"
        = verificarVitoria [⟨"A", "Red", 5⟩, ⟨"B", "Red", 2⟩] ⟨3, "m"⟩ "Red") ∧
    verificarVitoria [⟨"A", "Red", 5⟩, ⟨"B", "Red", 2⟩] ⟨0, "m"⟩ "Red"
      = verificarVitoria [⟨"A", "Red", 5⟩, ⟨"B", "Red", 2⟩] ⟨3, "m"⟩ "Red" ∧
    verificarVitoria [⟨"A", "Red", 5⟩, ⟨"B", "Red", 2⟩] ⟨7, "m"⟩ "Red"
      = verificarVitoria [⟨"A", "Red", 5⟩, ⟨"B", "Red", 2⟩] ⟨3, "m"⟩ "Red" :=
  ⟨⟨by decide,
    (verificarVitoria_outros_ids [⟨"A", "Red", 5⟩, ⟨"B", "Red", 2⟩] (-4) "m" "m" "Red"
      (by decide) (by decide)).1⟩,
   (verificarVitoria_outros_ids [⟨"A", "Red", 5⟩, ⟨"B", "Red", 2⟩] 0 "m" "m" "Red"
      (by decide) (by decide)).1,
   (verificarVitoria_outros_ids [⟨"A", "Red", 5⟩, ⟨"B", "Red", 2⟩] 7 "m" "m" "Red"
      (by decide) (by decide)).1⟩

/-! ## Mission draw -/

/-- Counting up to `n` does not distinguish two predicates that agree everywhere. -/
theorem count_equiv (p q : Nat → Prop) [DecidablePred p] [DecidablePred q]
    (h : ∀ k, p k ↔ q k) (n : Nat) : Nat.count p n = Nat.count q n := by
  induction n with
  | zero => simp
  | succ m ih => simp only [Nat.count_succ, ih, h m]

/-- How many values `r < n` of `rand()` make `sortearMissao` return `k + 1`,
for a residue `k < 3`. -/
theorem sortearMissao_contagem (k n : Nat) (hk : k < 3) :
    Nat.count (fun r => sortearMissao r = (k : Int) + 1) n
      = n / 3 + if k < n % 3 then 1 else 0 := by
  have hcongr : Nat.count (fun r => sortearMissao r = (k : Int) + 1) n
      = Nat.count (fun r => r ≡ k [MOD 3]) n := by
    apply count_equiv
    intro r
    unfold sortearMissao TOTAL_MISSOES Nat.ModEq
    omega
  rw [hcongr, Nat.count_modEq_card n (by norm_num : 0 < 3) k, Nat.mod_eq_of_lt hk]

/-- C16 (as amended): over the values `0..RAND_MAX` of `rand()`,
`sortearMissao` always returns 1, 2 or 3; ids 1 and 2 are each returned for
715827883 values and id 3 for 715827882 values. -/
theorem sortearMissao_distribuicao :
    (∀ rnd : Nat, sortearMissao rnd = 1 ∨ sortearMissao rnd = 2 ∨ sortearMissao rnd = 3) ∧
    Nat.count (fun r => sortearMissao r = 1) (RAND_MAX + 1) = 715827883 ∧
    Nat.count (fun r => sortearMissao r = 2) (RAND_MAX + 1) = 715827883 ∧
    Nat.count (fun r => sortearMissao r = 3) (RAND_MAX + 1) = 715827882 := by
  refine ⟨?_, ?_, ?_, ?_⟩
  · intro rnd
    unfold sortearMissao TOTAL_MISSOES
    omega
  · have h := sortearMissao_contagem 0 (RAND_MAX + 1) (by norm_num)
    simpa [RAND_MAX] using h
  · have h := sortearMissao_contagem 1 (RAND_MAX + 1) (by norm_num)
    simpa [RAND_MAX] using h
  · have h := sortearMissao_contagem 2 (RAND_MAX + 1) (by norm_num)
    simpa [RAND_MAX] using h

/-- C16 as written fails: over the values `0..RAND_MAX` of `rand()`, the
number of values for which `sortearMissao` returns 1 is not the number of
values for which it returns 3. -/
theorem sortearMissao_nao_uniforme :
    Nat.count (fun r => sortearMissao r = 1) (RAND_MAX + 1)
      ≠ Nat.count (fun r => sortearMissao r = 3) (RAND_MAX + 1) := by
  have h1 := sortearMissao_contagem 0 (RAND_MAX + 1) (by norm_num)
  have h3 := sortearMissao_contagem 2 (RAND_MAX + 1) (by norm_num)
  simp only [Nat.cast_zero, zero_add, Nat.cast_ofNat] at h1 h3
  norm_num at h3
  rw [h1, h3]
  simp [RAND_MAX]

/-! ## Totals over the map before and after an attack -/

/-- Writing `x` over the entry `a` at position `i` changes the sum of `g` over
the list by `g x - g a`. -/
theorem sum_map_set {α : Type} (g : α → Int) (l : List α) :
    ∀ (i : Nat) (a x : α), l[i]? = some a →
      ((l.set i x).map g).sum = (l.map g).sum - g a + g x := by
  induction l with
  | nil => intro i a x h; simp at h
  | cons y resto ih =>
    intro i a x h
    cases i with
    | zero =>
      simp only [List.getElem?_cons_zero, Option.some.injEq] at h
      subst h
      simp only [List.set_cons_zero, List.map_cons, List.sum_cons]
      omega
    | succ k =>
      simp only [List.getElem?_cons_succ] at h
      simp only [List.set_cons_succ, List.map_cons, List.sum_cons, ih k a x h]
      omega

/-- The troops of the player's territories, as a sum over the whole map of
each territory's contribution. -/
theorem soma_filter_eq (cor : String) (l : List Territorio) :
    ((l.filter (fun t => decide (t.corExercito = cor))).map Territorio.tropas).sum
      = (l.map (fun t => if t.corExercito = cor then t.tropas else 0)).sum := by
  induction l with
  | nil => simp
  | cons t resto ih =>
    by_cases ht : t.corExercito = cor
    · simp only [List.filter_cons, ht, decide_True, if_true, List.map_cons, List.sum_cons]
      simp only [ht] at ih
      omega
    · simp only [List.filter_cons, ht, decide_False, Bool.false_eq_true, if_false,
        List.map_cons, List.sum_cons]
      omega

/-- The number of the player's territories, as a sum over the whole map. -/
theorem countP_eq_sum (cor : String) (l : List Territorio) :
    ((l.countP (fun t => decide (t.corExercito = cor)) : Nat) : Int)
      = (l.map (fun t => if t.corExercito = cor then (1 : Int) else 0)).sum := by
  induction l with
  | nil => simp
  | cons t resto ih =>
    by_cases ht : t.corExercito = cor
    · simp only [List.countP_cons, ht, decide_True, if_true, List.map_cons, List.sum_cons,
        Nat.cast_add, Nat.cast_one]
      simp only [ht] at ih
      omega
    · simp only [List.countP_cons, ht, decide_False, Bool.false_eq_true, if_false,
        List.map_cons, List.sum_cons, Nat.cast_add, Nat.cast_zero]
      omega

/-- After an accepted attack, the sum of any `g` over the map is the old sum
with the contributions of the origin and the destination replaced by those of
the two results of `simularAtaque`. -/
theorem faseDeAtaque_atacou_soma (mapa : List Territorio) (cor : String)
    (entOrigem entDestino : Option Int) (rnd : Nat)
    (h : (faseDeAtaque mapa cor entOrigem entDestino rnd).1 = Relato.atacou) :
    ∃ a b, a ∈ mapa ∧ b ∈ mapa ∧
      a.corExercito = cor ∧ b.corExercito ≠ cor ∧ 1 < a.tropas ∧
      ∀ g : Territorio → Int,
        ((faseDeAtaque mapa cor entOrigem entDestino rnd).2.map g).sum
          = (mapa.map g).sum - g a + g (simularAtaque rnd a b).1
              - g b + g (simularAtaque rnd a b).2 := by
  obtain ⟨o, d, a, b, ho, hd, h1, h2, h3, h4, ha, hb, hca, hcb, ht, hres⟩ :=
    faseDeAtaque_atacou mapa cor entOrigem entDestino rnd h
  have hne : o.toNat ≠ d.toNat := by
    intro hod
    rw [hod, hb] at ha
    cases ha
    exact hcb hca
  refine ⟨a, b, List.mem_iff_getElem?.mpr ⟨o.toNat, ha⟩,
    List.mem_iff_getElem?.mpr ⟨d.toNat, hb⟩, hca, hcb, ht, ?_⟩
  intro g
  have hb2 : (mapa.set o.toNat (simularAtaque rnd a b).1)[d.toNat]? = some b := by
    rw [List.getElem?_set_ne hne]; exact hb
  rw [hres, sum_map_set g _ d.toNat b _ hb2, sum_map_set g mapa o.toNat a _ ha]

/-- The summing loop of `case 2` computes the 32-bit wrap of the accumulator
plus the troops of the player's territories. -/
theorem somarTropas_wrap (cor : String) (l : List Territorio) :
    ∀ total : Int, ehInt total →
      somarTropas cor l total
        = wrapInt (total +
            ((l.filter (fun t => decide (t.corExercito = cor))).map Territorio.tropas).sum) := by
  induction l with
  | nil =>
    intro total h
    simp [somarTropas, wrapInt_of_ehInt h]
  | cons t resto ih =>
    intro total h
    by_cases ht : t.corExercito = cor
    · have hw : ehInt (wrapInt (total + t.tropas)) := by
        unfold ehInt INT_MIN INT_MAX wrapInt; omega
      simp only [somarTropas, ht, if_true, List.filter_cons, decide_True, List.map_cons,
        List.sum_cons]
      rw [ih _ hw]
      unfold wrapInt
      omega
    · simp only [somarTropas, ht, if_false, List.filter_cons, decide_False,
        Bool.false_eq_true]
      exact ih total h

/-- The colours after `simularAtaque` when the origin is the player's: the
origin stays the player's; the destination becomes the player's with 1 troop
when the attacker wins and is left as it was when the defender wins. -/
theorem simularAtaque_cores (rnd : Nat) (a b : Territorio) (cor : String)
    (hca : a.corExercito = cor) :
    (simularAtaque rnd a b).1.corExercito = cor ∧
    (rnd % 2 = 1 → (simularAtaque rnd a b).2.corExercito = cor ∧
      (simularAtaque rnd a b).2.tropas = 1) ∧
    (rnd % 2 = 0 → (simularAtaque rnd a b).2 = b) ∧
    (rnd % 2 = 0 ∨ rnd % 2 = 1) := by
  refine ⟨by rw [(simularAtaque_nomes rnd a b).2.2]; exact hca, ?_, ?_, by omega⟩
  · intro hr
    simp [simularAtaque, hr, hca]
  · intro hr
    simp [simularAtaque, hr]

/-- C18 (as amended): for every map with troop counts in `int` range and every
attack command, the sum of troops over the player's territories is one less
when the attack is accepted and the defender wins and is unchanged otherwise,
so it never increases; and when that sum fits in an `int` before and after the
command, `verificarVitoria` for mission 2 does not turn from false to true. -/
theorem faseDeAtaque_soma_tropas (mapa : List Territorio) (cor descricao : String)
    (entOrigem entDestino : Option Int) (rnd : Nat) (hint : tropasEmInt mapa) :
    ((((faseDeAtaque mapa cor entOrigem entDestino rnd).2.filter
          (fun t => decide (t.corExercito = cor))).map Territorio.tropas).sum
      = ((mapa.filter (fun t => decide (t.corExercito = cor))).map Territorio.tropas).sum
        - (if (faseDeAtaque mapa cor entOrigem entDestino rnd).1 = Relato.atacou ∧ rnd % 2 = 0
            then 1 else 0)) ∧
    ((((faseDeAtaque mapa cor entOrigem entDestino rnd).2.filter
          (fun t => decide (t.corExercito = cor))).map Territorio.tropas).sum
      ≤ ((mapa.filter (fun t => decide (t.corExercito = cor))).map Territorio.tropas).sum) ∧
    (ehInt ((mapa.filter (fun t => decide (t.corExercito = cor))).map Territorio.tropas).sum →
      ehInt (((faseDeAtaque mapa cor entOrigem entDestino rnd).2.filter
          (fun t => decide (t.corExercito = cor))).map Territorio.tropas).sum →
      verificarVitoria mapa ⟨2, descricao⟩ cor = false →
      verificarVitoria (faseDeAtaque mapa cor entOrigem entDestino rnd).2 ⟨2, descricao⟩ cor
        = false) := by
  have hsum : (((faseDeAtaque mapa cor entOrigem entDestino rnd).2.filter
          (fun t => decide (t.corExercito = cor))).map Territorio.tropas).sum
      = ((mapa.filter (fun t => decide (t.corExercito = cor))).map Territorio.tropas).sum
        - (if (faseDeAtaque mapa cor entOrigem entDestino rnd).1 = Relato.atacou ∧ rnd % 2 = 0
            then 1 else 0) := by
    by_cases h : (faseDeAtaque mapa cor entOrigem entDestino rnd).1 = Relato.atacou
    · obtain ⟨a, b, ha, _, hca, hcb, ht, hg⟩ :=
        faseDeAtaque_atacou_soma mapa cor entOrigem entDestino rnd h
      have hg2 := hg (fun t => if t.corExercito = cor then t.tropas else 0)
      have h1 := simularAtaque_origem_tropas rnd a b ht (hint a ha).2
      obtain ⟨hc1, hwin, hlose, hr⟩ := simularAtaque_cores rnd a b cor hca
      rw [soma_filter_eq, soma_filter_eq, hg2]
      simp only [hca, hcb, hc1, if_true, if_false, h1, h, true_and]
      rcases hr with hr | hr
      · rw [hlose hr]
        simp only [hcb, hr, if_true, if_false]
        omega
      · obtain ⟨hc2, ht2⟩ := hwin hr
        simp only [hc2, ht2, hr, if_true]
        simp only [one_ne_zero, if_false]
        omega
    · rw [faseDeAtaque_rejeitado mapa cor entOrigem entDestino rnd h]
      simp [h]
  refine ⟨hsum, ?_, ?_⟩
  · rw [hsum]
    split <;> omega
  · intro hS hS1 hv
    have hz : ehInt 0 := by unfold ehInt INT_MIN INT_MAX; omega
    have e0 := somarTropas_wrap cor mapa 0 hz
    have e1 := somarTropas_wrap cor (faseDeAtaque mapa cor entOrigem entDestino rnd).2 0 hz
    rw [zero_add, wrapInt_of_ehInt hS] at e0
    rw [zero_add, wrapInt_of_ehInt hS1] at e1
    simp only [verificarVitoria, if_true, e0, e1, decide_eq_false_iff_not,
      show ¬ ((2 : Int) = 1) by decide, if_false] at hv ⊢
    rw [hsum]
    split <;> omega

/-- C18 (as amended) at the scenario of the specification, defender winning:
Red's total goes from 7 to 6. -/
theorem faseDeAtaque_soma_tropas_witness :
    tropasEmInt [⟨"A", "Red", 5⟩, ⟨"B", "Red", 2⟩, ⟨"C", "Green", 3⟩,
        ⟨"D", "Blue", 1⟩, ⟨"E", "Blue", 4⟩] ∧
    (((faseDeAtaque [⟨"A", "Red", 5⟩, ⟨"B", "Red", 2⟩, ⟨"C", "Green", 3⟩,
        ⟨"D", "Blue", 1⟩, ⟨"E", "Blue", 4⟩] "Red" (some 0) (some 2) 0).2.filter
          (fun t => decide (t.corExercito = "Red"))).map Territorio.tropas).sum
      ≤ ((([⟨"A", "Red", 5⟩, ⟨"B", "Red", 2⟩, ⟨"C", "Green", 3⟩,
        ⟨"D", "Blue", 1⟩, ⟨"E", "Blue", 4⟩] : List Territorio).filter
          (fun t => decide (t.corExercito = "Red"))).map Territorio.tropas).sum :=
  ⟨by decide,
   (faseDeAtaque_soma_tropas [⟨"A", "Red", 5⟩, ⟨"B", "Red", 2⟩, ⟨"C", "Green", 3⟩,
        ⟨"D", "Blue", 1⟩, ⟨"E", "Blue", 4⟩] "Red" "m" (some 0) (some 2) 0 (by decide)).2.1⟩

/-- C18 as written fails: with 1073741824 troops on each of Red's two
territories (all troop counts in `int` range) the 32-bit total wraps to a
negative number and mission 2 is not fulfilled; after an attack from territory
0 to territory 2 that the defender wins the total is 2147483647 and mission 2
is fulfilled. -/
theorem faseDeAtaque_missao2_vira :
    tropasEmInt [⟨"A", "Red", 1073741824⟩, ⟨"B", "Red", 1073741824⟩, ⟨"C", "Green", 3⟩] ∧
    verificarVitoria [⟨"A", "Red", 1073741824⟩, ⟨"B", "Red", 1073741824⟩, ⟨"C", "Green", 3⟩]
      ⟨2, "m"⟩ "Red" = false ∧
    verificarVitoria
      (faseDeAtaque [⟨"A", "Red", 1073741824⟩, ⟨"B", "Red", 1073741824⟩, ⟨"C", "Green", 3⟩]
        "Red" (some 0) (some 2) 0).2 ⟨2, "m"⟩ "Red" = true := by
  decide

/-- The number of the player's territories after `faseDeAtaque`: one more when
the attack is accepted and the attacker wins, the same otherwise. -/
theorem faseDeAtaque_contagem (mapa : List Territorio) (cor : String)
    (entOrigem entDestino : Option Int) (rnd : Nat) :
    (faseDeAtaque mapa cor entOrigem entDestino rnd).2.countP
        (fun t => decide (t.corExercito = cor))
      = mapa.countP (fun t => decide (t.corExercito = cor))
        + (if (faseDeAtaque mapa cor entOrigem entDestino rnd).1 = Relato.atacou ∧ rnd % 2 = 1
            then 1 else 0) := by
  by_cases h : (faseDeAtaque mapa cor entOrigem entDestino rnd).1 = Relato.atacou
  · obtain ⟨a, b, _, _, hca, hcb, _, hg⟩ :=
      faseDeAtaque_atacou_soma mapa cor entOrigem entDestino rnd h
    have hg2 := hg (fun t => if t.corExercito = cor then (1 : Int) else 0)
    obtain ⟨hc1, hwin, hlose, hr⟩ := simularAtaque_cores rnd a b cor hca
    rw [← countP_eq_sum, ← countP_eq_sum] at hg2
    simp only [hca, hcb, hc1, if_true, if_false] at hg2
    simp only [h, true_and]
    rcases hr with hr | hr
    · rw [hlose hr] at hg2
      simp only [hcb, if_false] at hg2
      simp only [hr, zero_ne_one, if_false]
      omega
    · rw [(hwin hr).1] at hg2
      simp only [if_true] at hg2
      simp only [hr, if_true]
      omega
  · rw [faseDeAtaque_rejeitado mapa cor entOrigem entDestino rnd h]
    simp [h]

/-- C19: for every attack command, every territory that had the player's colour
still has it afterwards; the number of the player's territories grows by
exactly 1 when the attack is accepted and the attacker wins and is unchanged
otherwise; so `verificarVitoria` for missions 1 and 3, once true, stays true. -/
theorem faseDeAtaque_posse (mapa : List Territorio) (cor descricao : String)
    (entOrigem entDestino : Option Int) (rnd : Nat)
    (hq : (mapa.length : Int) ≤ INT_MAX) :
    (∀ (i : Nat) (a : Territorio), mapa[i]? = some a → a.corExercito = cor →
      ∃ a1, (faseDeAtaque mapa cor entOrigem entDestino rnd).2[i]? = some a1 ∧
        a1.corExercito = cor) ∧
    ((faseDeAtaque mapa cor entOrigem entDestino rnd).2.countP
        (fun t => decide (t.corExercito = cor))
      = mapa.countP (fun t => decide (t.corExercito = cor))
        + (if (faseDeAtaque mapa cor entOrigem entDestino rnd).1 = Relato.atacou ∧ rnd % 2 = 1
            then 1 else 0)) ∧
    (verificarVitoria mapa ⟨1, descricao⟩ cor = true →
      verificarVitoria (faseDeAtaque mapa cor entOrigem entDestino rnd).2 ⟨1, descricao⟩ cor
        = true) ∧
    (verificarVitoria mapa ⟨3, descricao⟩ cor = true →
      verificarVitoria (faseDeAtaque mapa cor entOrigem entDestino rnd).2 ⟨3, descricao⟩ cor
        = true) := by
  have hcount := faseDeAtaque_contagem mapa cor entOrigem entDestino rnd
  have hlen : (faseDeAtaque mapa cor entOrigem entDestino rnd).2.length = mapa.length := by
    by_cases h : (faseDeAtaque mapa cor entOrigem entDestino rnd).1 = Relato.atacou
    · obtain ⟨_, _, _, _, _, _, _, _, _, _, _, _, _, _, _, hres⟩ :=
        faseDeAtaque_atacou mapa cor entOrigem entDestino rnd h
      rw [hres]; simp
    · rw [faseDeAtaque_rejeitado mapa cor entOrigem entDestino rnd h]
  refine ⟨?_, hcount, ?_, ?_⟩
  · intro i a hi hca
    by_cases h : (faseDeAtaque mapa cor entOrigem entDestino rnd).1 = Relato.atacou
    · obtain ⟨o, d, a0, b0, ho, hd, _, _, _, _, _, _, _, _, _, _⟩ :=
        faseDeAtaque_atacou mapa cor entOrigem entDestino rnd h
      subst ho
      subst hd
      obtain ⟨a2, b2, ha2, hb2, _, _, _, hca2, hcb2, _, _, hro, _, hrk⟩ :=
        faseDeAtaque_atacou_leitura mapa cor o d rnd h
      by_cases hio : i = o.toNat
      · subst hio
        exact ⟨_, hro, (simularAtaque_cores rnd a2 b2 cor hca2).1⟩
      · by_cases hid : i = d.toNat
        · subst hid
          rw [hb2] at hi
          cases hi
          exact absurd hca hcb2
        · exact ⟨a, by rw [hrk i hio hid]; exact hi, hca⟩
    · rw [faseDeAtaque_rejeitado mapa cor entOrigem entDestino rnd h]
      exact ⟨a, hi, hca⟩
  · intro hv
    have e0 := contarTerritorios_eq cor mapa 0 (le_refl 0) (by omega)
    have e1 := contarTerritorios_eq cor (faseDeAtaque mapa cor entOrigem entDestino rnd).2 0
      (le_refl 0) (by rw [hlen]; omega)
    simp only [verificarVitoria, if_true, e0, e1, decide_eq_true_eq] at hv ⊢
    rw [hcount]
    push_cast
    split <;> omega
  · intro hv
    have hall : ∀ t ∈ mapa, t.corExercito = cor := by
      have h3 : verificarVitoria mapa ⟨3, descricao⟩ cor = dominaTodos cor mapa := by
        simp [verificarVitoria]
      rw [h3] at hv
      exact (dominaTodos_iff cor mapa).mp hv
    have hrej : (faseDeAtaque mapa cor entOrigem entDestino rnd).1 ≠ Relato.atacou := by
      intro h
      obtain ⟨_, b, _, hb, _, hcb, _, _⟩ :=
        faseDeAtaque_atacou_soma mapa cor entOrigem entDestino rnd h
      exact hcb (hall b hb)
    rw [faseDeAtaque_rejeitado mapa cor entOrigem entDestino rnd hrej]
    exact hv

/-- C19 at the scenario of the specification, attacker winning: Red goes from
two territories to three and mission 1 becomes and stays fulfilled. -/
theorem faseDeAtaque_posse_witness :
    ((5 : Int) ≤ INT_MAX) ∧
    (faseDeAtaque [⟨"A", "Red", 5⟩, ⟨"B", "Red", 2⟩, ⟨"C", "Green", 3⟩,
        ⟨"D", "Blue", 1⟩, ⟨"E", "Blue", 4⟩] "Red" (some 0) (some 2) 1).2.countP
        (fun t => decide (t.corExercito = "Red"))
      = ([⟨"A", "Red", 5⟩, ⟨"B", "Red", 2⟩, ⟨"C", "Green", 3⟩,
        ⟨"D", "Blue", 1⟩, ⟨"E", "Blue", 4⟩] : List Territorio).countP
          (fun t => decide (t.corExercito = "Red"))
        + (if (faseDeAtaque [⟨"A", "Red", 5⟩, ⟨"B", "Red", 2⟩, ⟨"C", "Green", 3⟩,
            ⟨"D", "Blue", 1⟩, ⟨"E", "Blue", 4⟩] "Red" (some 0) (some 2) 1).1 = Relato.atacou
              ∧ 1 % 2 = 1 then 1 else 0) :=
  ⟨by decide,
   (faseDeAtaque_posse [⟨"A", "Red", 5⟩, ⟨"B", "Red", 2⟩, ⟨"C", "Green", 3⟩,
        ⟨"D", "Blue", 1⟩, ⟨"E", "Blue", 4⟩] "Red" "m" (some 0) (some 2) 1 (by decide)).2.1⟩

end War
